import Mathlib

/-!
Shallow embedding of the `course_catalog_cache` repository: a read-through
caching proxy for a paginated upstream courses API, with a fresh/stale
two-tier cache and a distributed refresh lock.

Embedded source files:
* `src/course_catalog_cache/views.py` (configurable handler) — namespace-free
  definitions below (`fetch_all_courses_from_courses_api`, `courses_all`, ...).
* `src/views.py` (legacy hard-coded handler) — namespace `Legacy`.

Modelling choices:
* JSON values are the inductive `Json`; Python truthiness is `Json.truthy`.
* The network is an oracle `String → Except String Page`; `Except.error m`
  stands for a raised transport exception with message `m`.  A page carries
  the HTTP status, the raw body text and the parsed JSON
  (`Except.error m` = `resp.json()` raised).  The request timeout value is
  carried in the configuration but its effect (a timeout exception) is
  subsumed by the oracle returning `Except.error`.
* The Django cache store is an association list; `cacheSet` prepends
  (shadowing), `cacheGet` takes the first hit, `cacheDelete` removes every
  entry for the key, `cacheAdd` is the atomic add-if-absent.  TTLs are
  recorded with each entry but expiry is modelled as an external delete
  (see `COp`), never performed spontaneously.
* The unbounded `while url:` loop is modelled with explicit fuel:
  `none` means the fuel bound was exhausted (the Python loop has not
  returned yet).
* Messages of exceptions other than the fetcher's own `RuntimeError`
  (JSON decode errors, attribute errors on non-dict values, bad next-URL
  types) are abstracted to fixed strings: no claim depends on their text.
-/

/-- A JSON value, as produced by `resp.json()`. -/
inductive Json where
  | null : Json
  | bool : Bool → Json
  | num : Int → Json
  | str : String → Json
  | arr : List Json → Json
  | obj : List (String × Json) → Json

/-- Python truthiness of a JSON value (`None`, `False`, `0`, `""`, `[]`,
`\x7b\x7d` are falsy). -/
def Json.truthy : Json → Bool
  | .null => false
  | .bool b => b
  | .num n => n != 0
  | .str s => s != ""
  | .arr xs => !xs.isEmpty
  | .obj fs => !fs.isEmpty

/-- `dict.get(key)` on the field list of a JSON object. -/
def lookupField : List (String × Json) → String → Option Json
  | [], _ => none
  | (k, v) :: fs, key => if k = key then some v else lookupField fs key

/-- `results = data.get("results") or []` followed by
`if not isinstance(results, list): results = []`
(views.py lines 76–78): any absent, falsy or non-list value becomes `[]`. -/
def pageResults (fs : List (String × Json)) : List Json :=
  match lookupField fs "results" with
  | some (Json.arr xs) => xs
  | _ => []

/-- `pagination = data.get("pagination") or \x7b\x7d; url = pagination.get("next")`
(views.py lines 82–83), combined with the `while url:` truthiness test.
`Except.error`: Python raises (`.get` on a non-dict, or a truthy non-string
next URL handed to `session.get`). `.ok none`: the loop terminates
(`next` absent, `null`, or otherwise falsy). `.ok (some u)`: continue at `u`. -/
def stepNext (fs : List (String × Json)) : Except Unit (Option String) :=
  match lookupField fs "pagination" with
  | none => Except.ok none
  | some p =>
    if p.truthy = false then Except.ok none
    else
      match p with
      | Json.obj pfs =>
        match lookupField pfs "next" with
        | none => Except.ok none
        | some v =>
          if v.truthy = false then Except.ok none
          else
            match v with
            | Json.str s => Except.ok (some s)
            | _ => Except.error ()
      | _ => Except.error ()

/-- One upstream HTTP response: status code, raw text, parsed JSON body
(`Except.error m` = `resp.json()` raised with message `m`). -/
structure Page where
  status : Nat
  text : String
  body : Except String Json

/-- Failure of the fetch step, caught at the handler's `except Exception`.
`upstreamError` is the `RuntimeError` raised at views.py line 71;
`exn` is any other exception (transport error, JSON decode error, ...). -/
inductive FetchErr where
  | upstreamError : Nat → Nat → String → FetchErr
  | exn : String → FetchErr

/-- `str(exc)` as interpolated into the 502 body (views.py line 139).
For the `RuntimeError` this is its message f-string (line 72). -/
def errMsg : FetchErr → String
  | FetchErr.upstreamError page status bodySnippet =>
      "Courses API failed page=" ++ toString page ++ " status=" ++ toString status
        ++ " body=" ++ bodySnippet
  | FetchErr.exn m => m

/-- Python string slicing `s[:n]`: the first `n` characters. -/
def pyTake (s : String) (n : Nat) : String :=
  String.mk (s.data.take n)

/-- The `while url:` pagination loop of
`_fetch_all_courses_from_courses_api` (views.py lines 68–84), with fuel
bounding the number of iterations (`none` = fuel exhausted, the Python
loop is still running). -/
def fetchLoop (up : String → Except String Page) (fuel : Nat) (url : String)
    (page : Nat) (acc : List Json) : Option (Except FetchErr (List Json)) :=
  if url = "" then some (Except.ok acc)
  else
    match fuel with
    | 0 => none
    | fuel' + 1 =>
      match up url with
      | Except.error m => some (Except.error (FetchErr.exn m))
      | Except.ok resp =>
        if resp.status ≠ 200 then
          some (Except.error (FetchErr.upstreamError page resp.status (pyTake resp.text 300)))
        else
          match resp.body with
          | Except.error m => some (Except.error (FetchErr.exn m))
          | Except.ok data =>
            match data with
            | Json.obj fs =>
              match stepNext fs with
              | Except.error _ => some (Except.error (FetchErr.exn "unhandled exception"))
              | Except.ok none => some (Except.ok (acc ++ pageResults fs))
              | Except.ok (some u) => fetchLoop up fuel' u (page + 1) (acc ++ pageResults fs)
            | _ => some (Except.error (FetchErr.exn "unhandled exception"))

/-- A value held in the Django cache store: a catalog snapshot (list of
opaque course records) or the lock token string. -/
inductive CacheVal where
  | snap : List Json → CacheVal
  | tok : String → CacheVal

/-- The shared cache store: key, value and the TTL it was stored with.
Expiry is modelled externally (as a delete), never spontaneously. -/
abbrev Cache := List (String × CacheVal × Nat)

/-- `cache.get(key)`: first entry for the key, if any. -/
def cacheGet : Cache → String → Option CacheVal
  | [], _ => none
  | (k, v, _) :: es, key => if k = key then some v else cacheGet es key

/-- `cache.get(key)` together with the TTL the entry was stored with. -/
def cacheGetTtl : Cache → String → Option (CacheVal × Nat)
  | [], _ => none
  | (k, v, t) :: es, key => if k = key then some (v, t) else cacheGetTtl es key

/-- `cache.set(key, value, timeout)`: overwrite by shadowing. -/
def cacheSet (c : Cache) (k : String) (v : CacheVal) (ttl : Nat) : Cache :=
  (k, v, ttl) :: c

/-- `cache.delete(key)`: remove every entry for the key. -/
def cacheDelete : Cache → String → Cache
  | [], _ => []
  | (k, v, t) :: es, key =>
    if k = key then cacheDelete es key else (k, v, t) :: cacheDelete es key

/-- `cache.add(key, value, timeout)`: atomic add-if-absent, returning
whether the value was stored together with the new store state. -/
def cacheAdd (c : Cache) (k : String) (v : CacheVal) (ttl : Nat) : Bool × Cache :=
  match cacheGet c k with
  | some _ => (false, c)
  | none => (true, cacheSet c k v ttl)

/-- The body of a JSON response produced by the handler: the snapshot
envelope of `_json_response` (views.py lines 89–97), the 502 error body
(lines 136–143) or the 503 warming-up body (lines 157–160). -/
inductive RespBody where
  | snapshot : Nat → CacheVal → String → String → Nat → RespBody
  | errorBody : String → String → String → RespBody
  | warming : String → String → RespBody

/-- An HTTP response: status code and JSON body. -/
structure Response where
  status : Nat
  body : RespBody

/-- Python `len` applied to a cached value (a list of records, or the lock
token string in the off-design case). -/
def pyLen : CacheVal → Nat
  | CacheVal.snap rs => rs.length
  | CacheVal.tok s => s.length

/-- `_json_response(results, source, http_status)` (views.py lines 89–97):
count is `len(results)`, `generated_at` is the supplied construction-time
stamp, version is 1. -/
def json_response (v : CacheVal) (source now : String) (http_status : Nat) : Response :=
  ⟨http_status, RespBody.snapshot (pyLen v) v source now 1⟩

/-- One observable operation performed by a handler: a cache-store
primitive on a key, or the initiation of an upstream fetch
(one call of `_fetch_all_courses_from_courses_api`). -/
inductive Ev where
  | get : String → Ev
  | add : String → Ev
  | set : String → Ev
  | del : String → Ev
  | fetch : Ev

/-- Number of upstream fetches initiated in a handler trace. -/
def countFetchEv : List Ev → Nat
  | [] => 0
  | Ev.fetch :: es => countFetchEv es + 1
  | _ :: es => countFetchEv es

/-- The result of one handler invocation: the HTTP response, the final
cache-store state, and the trace of operations performed, in order. -/
structure HResult where
  response : Response
  cache : Cache
  trace : List Ev

/-- The configuration surface of `src/course_catalog_cache/views.py`
(the `DEFAULTS` dict, each entry overridable via Django settings). -/
structure Config where
  cache_key : String
  stale_key : String
  lock_key : String
  cache_ttl_seconds : Nat
  stale_ttl_seconds : Nat
  lock_ttl_seconds : Nat
  request_timeout_seconds : Nat
  page_size : Nat
  api_path : String

/-- The `DEFAULTS` dict of views.py lines 14–24. -/
def DEFAULTS : Config :=
  { cache_key := "upvx:courses_all:v1"
    stale_key := "upvx:courses_all:stale:v1"
    lock_key := "upvx:courses_all:lock:v1"
    cache_ttl_seconds := 15 * 60
    stale_ttl_seconds := 24 * 60 * 60
    lock_ttl_seconds := 20
    request_timeout_seconds := 8
    page_size := 100
    api_path := "/api/courses/v1/courses/" }

/-- `"".rstrip("/")`-style stripping of trailing slashes. -/
def rstripSlash (s : String) : String :=
  String.mk (s.data.reverse.dropWhile (fun ch => ch == '/')).reverse

/-- `_build_internal_url(request, path, query)` of the configurable module
(views.py lines 43–50): prefer the `LMS_ROOT_URL` setting, else infer
scheme and host from the inbound request. -/
def build_internal_url (root : String) (secure : Bool) (host : String)
    (path query : String) : String :=
  let r := rstripSlash root
  if r ≠ "" then r ++ path ++ query
  else (if secure then "https" else "http") ++ "://" ++ host ++ path ++ query

/-- `_fetch_all_courses_from_courses_api(request)` of the configurable
module (views.py lines 53–86): build the first page URL and run the
pagination loop starting at page 1 with an empty accumulator. -/
def fetch_all_courses_from_courses_api (cfg : Config) (root : String) (secure : Bool)
    (host : String) (up : String → Except String Page) (fuel : Nat) :
    Option (Except FetchErr (List Json)) :=
  fetchLoop up fuel
    (build_internal_url root secure host cfg.api_path ("?page_size=" ++ toString cfg.page_size))
    1 []

/-- Steps 3–4 of the coordinator, run by a request that lost the lock
contest (views.py lines 147–160): serve stale if present, else re-read the
fresh tier once, else answer 503 warming-up.  Returns the response and the
trace of cache reads performed by this tail. -/
def lost_lock_fallback (cfg : Config) (now : String) (c : Cache) : Response × List Ev :=
  match cacheGet c cfg.stale_key with
  | some stale => (json_response stale "stale" now 200, [Ev.get cfg.stale_key])
  | none =>
    match cacheGet c cfg.cache_key with
    | some cached2 =>
      (json_response cached2 "cache" now 200, [Ev.get cfg.stale_key, Ev.get cfg.cache_key])
    | none =>
      (⟨503, RespBody.warming "Courses catalog is warming up. Please retry." now⟩,
        [Ev.get cfg.stale_key, Ev.get cfg.cache_key])

/-- `courses_all(request)` of `src/course_catalog_cache/views.py`
(lines 100–160).  `now` is the `_now_iso()` construction-time stamp,
`fuel` bounds the pagination loop, and the result is `none` exactly when
the fetch loop has not terminated within the fuel bound (the handler has
not returned). -/
def courses_all (cfg : Config) (root : String) (secure : Bool) (host : String)
    (up : String → Except String Page) (fuel : Nat) (now : String) (c : Cache) :
    Option HResult :=
  match cacheGet c cfg.cache_key with
  | some cached =>
    some ⟨json_response cached "cache" now 200, c, [Ev.get cfg.cache_key]⟩
  | none =>
    match cacheAdd c cfg.lock_key (CacheVal.tok "1") cfg.lock_ttl_seconds with
    | (true, c1) =>
      match fetch_all_courses_from_courses_api cfg root secure host up fuel with
      | none => none
      | some (Except.ok results) =>
        let c2 := cacheSet c1 cfg.cache_key (CacheVal.snap results) cfg.cache_ttl_seconds
        let c3 := cacheSet c2 cfg.stale_key (CacheVal.snap results) cfg.stale_ttl_seconds
        some ⟨json_response (CacheVal.snap results) "fresh" now 200,
          cacheDelete c3 cfg.lock_key,
          [Ev.get cfg.cache_key, Ev.add cfg.lock_key, Ev.fetch,
            Ev.set cfg.cache_key, Ev.set cfg.stale_key, Ev.del cfg.lock_key]⟩
      | some (Except.error exc) =>
        match cacheGet c1 cfg.stale_key with
        | some stale =>
          some ⟨json_response stale "stale" now 200, cacheDelete c1 cfg.lock_key,
            [Ev.get cfg.cache_key, Ev.add cfg.lock_key, Ev.fetch,
              Ev.get cfg.stale_key, Ev.del cfg.lock_key]⟩
        | none =>
          some ⟨⟨502, RespBody.errorBody
              "Could not refresh courses catalog and no stale cache available."
              (errMsg exc) now⟩,
            cacheDelete c1 cfg.lock_key,
            [Ev.get cfg.cache_key, Ev.add cfg.lock_key, Ev.fetch,
              Ev.get cfg.stale_key, Ev.del cfg.lock_key]⟩
    | (false, c1) =>
      match lost_lock_fallback cfg now c1 with
      | (resp, tr) =>
        some ⟨resp, c1, Ev.get cfg.cache_key :: Ev.add cfg.lock_key :: tr⟩

namespace Legacy

/-- `CACHE_KEY` of `src/views.py` line 16. -/
def CACHE_KEY : String := "upvx:courses_all:v1"

/-- `STALE_KEY` of `src/views.py` line 17. -/
def STALE_KEY : String := "upvx:courses_all:stale:v1"

/-- `LOCK_KEY` of `src/views.py` line 18. -/
def LOCK_KEY : String := "upvx:courses_all:lock:v1"

/-- `CACHE_TTL_SECONDS` of `src/views.py` line 20. -/
def CACHE_TTL_SECONDS : Nat := 15 * 60

/-- `STALE_TTL_SECONDS` of `src/views.py` line 21. -/
def STALE_TTL_SECONDS : Nat := 24 * 60 * 60

/-- `LOCK_TTL_SECONDS` of `src/views.py` line 22. -/
def LOCK_TTL_SECONDS : Nat := 20

/-- `_build_internal_url(request, path)` of `src/views.py` lines 39–48
(no separate query argument: the query string is part of the path). -/
def legacy_build_internal_url (root : String) (secure : Bool) (host : String)
    (path : String) : String :=
  let r := rstripSlash root
  if r ≠ "" then r ++ path
  else (if secure then "https" else "http") ++ "://" ++ host ++ path

/-- `_fetch_all_courses_from_courses_api(request)` of `src/views.py`
lines 51–88: hard-coded path and page size, same pagination loop. -/
def legacy_fetch_all (root : String) (secure : Bool) (host : String)
    (up : String → Except String Page) (fuel : Nat) :
    Option (Except FetchErr (List Json)) :=
  fetchLoop up fuel
    (legacy_build_internal_url root secure host "/api/courses/v1/courses/?page_size=100")
    1 []

/-- `courses_all(request)` of the legacy module `src/views.py`
lines 102–163, with the fallback ladder written inline as in the source. -/
def courses_all (root : String) (secure : Bool) (host : String)
    (up : String → Except String Page) (fuel : Nat) (now : String) (c : Cache) :
    Option HResult :=
  match cacheGet c CACHE_KEY with
  | some cached =>
    some ⟨json_response cached "cache" now 200, c, [Ev.get CACHE_KEY]⟩
  | none =>
    match cacheAdd c LOCK_KEY (CacheVal.tok "1") LOCK_TTL_SECONDS with
    | (true, c1) =>
      match legacy_fetch_all root secure host up fuel with
      | none => none
      | some (Except.ok results) =>
        let c2 := cacheSet c1 CACHE_KEY (CacheVal.snap results) CACHE_TTL_SECONDS
        let c3 := cacheSet c2 STALE_KEY (CacheVal.snap results) STALE_TTL_SECONDS
        some ⟨json_response (CacheVal.snap results) "fresh" now 200,
          cacheDelete c3 LOCK_KEY,
          [Ev.get CACHE_KEY, Ev.add LOCK_KEY, Ev.fetch,
            Ev.set CACHE_KEY, Ev.set STALE_KEY, Ev.del LOCK_KEY]⟩
      | some (Except.error exc) =>
        match cacheGet c1 STALE_KEY with
        | some stale =>
          some ⟨json_response stale "stale" now 200, cacheDelete c1 LOCK_KEY,
            [Ev.get CACHE_KEY, Ev.add LOCK_KEY, Ev.fetch,
              Ev.get STALE_KEY, Ev.del LOCK_KEY]⟩
        | none =>
          some ⟨⟨502, RespBody.errorBody
              "Could not refresh courses catalog and no stale cache available."
              (errMsg exc) now⟩,
            cacheDelete c1 LOCK_KEY,
            [Ev.get CACHE_KEY, Ev.add LOCK_KEY, Ev.fetch,
              Ev.get STALE_KEY, Ev.del LOCK_KEY]⟩
    | (false, c1) =>
      match cacheGet c1 STALE_KEY with
      | some stale =>
        some ⟨json_response stale "stale" now 200, c1,
          [Ev.get CACHE_KEY, Ev.add LOCK_KEY, Ev.get STALE_KEY]⟩
      | none =>
        match cacheGet c1 CACHE_KEY with
        | some cached2 =>
          some ⟨json_response cached2 "cache" now 200, c1,
            [Ev.get CACHE_KEY, Ev.add LOCK_KEY, Ev.get STALE_KEY, Ev.get CACHE_KEY]⟩
        | none =>
          some ⟨⟨503, RespBody.warming "Courses catalog is warming up. Please retry." now⟩,
            c1,
            [Ev.get CACHE_KEY, Ev.add LOCK_KEY, Ev.get STALE_KEY, Ev.get CACHE_KEY]⟩

end Legacy

/-- One serialized operation against the shared cache store (the store
executes concurrent requests' primitives in some serial order; `del` also
stands for TTL expiry of the key). -/
inductive COp where
  | get : String → COp
  | add : String → CacheVal → Nat → COp
  | set : String → CacheVal → Nat → COp
  | del : String → COp

/-- Effect of one serialized operation on the store state. -/
def applyCOp (c : Cache) : COp → Cache
  | COp.get _ => c
  | COp.add k v t => (cacheAdd c k v t).2
  | COp.set k v t => cacheSet c k v t
  | COp.del k => cacheDelete c k

/-- Number of successful `add` operations on the key `lk` (lock
acquisitions) along a serialized operation sequence. -/
def lockWins (lk : String) : Cache → List COp → Nat
  | _, [] => 0
  | c, COp.add k v t :: ops =>
    (if k = lk ∧ (cacheAdd c k v t).1 = true then 1 else 0)
      + lockWins lk (cacheAdd c k v t).2 ops
  | c, op :: ops => lockWins lk (applyCOp c op) ops

/-- A well-formed run of upstream pages reachable from `url`: every page
answers 200 with a JSON object body, each page's `pagination.next` is a
truthy string pointing at the following page, and the last page's `next`
is absent, null or otherwise falsy. -/
inductive Chain (up : String → Except String Page) : String → List Page → Prop
  | last (url : String) (p : Page) (fs : List (String × Json)) :
      url ≠ "" → up url = Except.ok p → p.status = 200 →
      p.body = Except.ok (Json.obj fs) → stepNext fs = Except.ok none →
      Chain up url [p]
  | cons (url next : String) (p : Page) (fs : List (String × Json)) (ps : List Page) :
      url ≠ "" → up url = Except.ok p → p.status = 200 →
      p.body = Except.ok (Json.obj fs) → stepNext fs = Except.ok (some next) →
      next ≠ "" → Chain up next ps →
      Chain up url (p :: ps)

/-- The `results` contribution of one upstream page. -/
def pageResultsOf (p : Page) : List Json :=
  match p.body with
  | Except.ok (Json.obj fs) => pageResults fs
  | _ => []

/-- Concatenation of the `results` contributions of a run of pages, in
original order. -/
def concatResults : List Page → List Json
  | [] => []
  | p :: ps => pageResultsOf p ++ concatResults ps

theorem cacheGet_set_self (c : Cache) (k : String) (v : CacheVal) (t : Nat) :
    cacheGet (cacheSet c k v t) k = some v := by
  simp [cacheGet, cacheSet]

theorem cacheGet_set_ne (c : Cache) (k k' : String) (v : CacheVal) (t : Nat)
    (h : k' ≠ k) : cacheGet (cacheSet c k v t) k' = cacheGet c k' := by
  have hne : k ≠ k' := fun e => h (Eq.symm e)
  simp [cacheGet, cacheSet, hne]

theorem cacheGet_del_self (c : Cache) (k : String) :
    cacheGet (cacheDelete c k) k = none := by
  induction c with
  | nil => simp [cacheDelete, cacheGet]
  | cons e es ih =>
    obtain ⟨ek, ev, et⟩ := e
    by_cases h : ek = k
    · simpa [cacheDelete, h] using ih
    · simpa [cacheDelete, cacheGet, h] using ih

theorem cacheGet_del_ne (c : Cache) (k k' : String) (h : k' ≠ k) :
    cacheGet (cacheDelete c k) k' = cacheGet c k' := by
  induction c with
  | nil => rfl
  | cons e es ih =>
    obtain ⟨ek, ev, et⟩ := e
    by_cases hk : ek = k
    · have hq : ek ≠ k' := fun e2 => h (by rw [← e2, hk])
      rw [show cacheDelete ((ek, ev, et) :: es) k = cacheDelete es k from by
            simp [cacheDelete, hk]]
      rw [ih]
      simp [cacheGet, hq]
    · rw [show cacheDelete ((ek, ev, et) :: es) k = (ek, ev, et) :: cacheDelete es k from by
            simp [cacheDelete, hk]]
      simp [cacheGet, ih]

theorem cacheGetTtl_set_self (c : Cache) (k : String) (v : CacheVal) (t : Nat) :
    cacheGetTtl (cacheSet c k v t) k = some (v, t) := by
  simp [cacheGetTtl, cacheSet]

theorem cacheGetTtl_set_ne (c : Cache) (k k' : String) (v : CacheVal) (t : Nat)
    (h : k' ≠ k) : cacheGetTtl (cacheSet c k v t) k' = cacheGetTtl c k' := by
  have hne : k ≠ k' := fun e => h (Eq.symm e)
  simp [cacheGetTtl, cacheSet, hne]

theorem cacheGetTtl_del_ne (c : Cache) (k k' : String) (h : k' ≠ k) :
    cacheGetTtl (cacheDelete c k) k' = cacheGetTtl c k' := by
  induction c with
  | nil => rfl
  | cons e es ih =>
    obtain ⟨ek, ev, et⟩ := e
    by_cases hk : ek = k
    · have hq : ek ≠ k' := fun e2 => h (by rw [← e2, hk])
      rw [show cacheDelete ((ek, ev, et) :: es) k = cacheDelete es k from by
            simp [cacheDelete, hk]]
      rw [ih]
      simp [cacheGetTtl, hq]
    · rw [show cacheDelete ((ek, ev, et) :: es) k = (ek, ev, et) :: cacheDelete es k from by
            simp [cacheDelete, hk]]
      simp [cacheGetTtl, ih]

theorem isSome_cacheGet_applyCOp (c : Cache) (lk : String) (op : COp)
    (hop : op ≠ COp.del lk) (h : (cacheGet c lk).isSome = true) :
    (cacheGet (applyCOp c op) lk).isSome = true := by
  cases op with
  | get k => simpa [applyCOp] using h
  | add k v t =>
    simp only [applyCOp, cacheAdd]
    cases hk : cacheGet c k with
    | some w => simpa using h
    | none =>
      by_cases hkl : lk = k
      · simp [hkl, cacheGet_set_self]
      · simpa [cacheGet_set_ne c k lk v t hkl] using h
  | set k v t =>
    by_cases hkl : lk = k
    · simp [applyCOp, hkl, cacheGet_set_self]
    · simpa [applyCOp, cacheGet_set_ne c k lk v t hkl] using h
  | del k =>
    have hkl : lk ≠ k := by
      intro e; exact hop (by rw [e])
    simpa [applyCOp, cacheGet_del_ne c k lk hkl] using h

theorem lockWins_eq_zero_of_held (lk : String) (ops : List COp) :
    ∀ c : Cache, (cacheGet c lk).isSome = true →
    (∀ op ∈ ops, op ≠ COp.del lk) → lockWins lk c ops = 0 := by
  induction ops with
  | nil => intro c _ _; rfl
  | cons op ops ih =>
    intro c hc hops
    have hrest : ∀ o ∈ ops, o ≠ COp.del lk := fun o ho => hops o (List.mem_cons_of_mem _ ho)
    have hstep := isSome_cacheGet_applyCOp c lk op (hops op (List.mem_cons_self _ _)) hc
    cases op with
    | get k => simpa [lockWins, applyCOp] using ih _ hstep hrest
    | add k v t =>
      have hz : (if k = lk ∧ (cacheAdd c k v t).1 = true then 1 else 0) = 0 := by
        by_cases hkl : k = lk
        · obtain ⟨w, hw⟩ := Option.isSome_iff_exists.mp hc
          simp [cacheAdd, hkl, hw]
        · simp [hkl]
      have := ih _ hstep hrest
      simp only [lockWins, hz, Nat.zero_add]
      simpa [applyCOp] using this
    | set k v t => simpa [lockWins, applyCOp] using ih _ hstep hrest
    | del k => simpa [lockWins, applyCOp] using ih _ hstep hrest

theorem lockWins_le_one (lk : String) (ops : List COp) :
    ∀ c : Cache, (∀ op ∈ ops, op ≠ COp.del lk) → lockWins lk c ops ≤ 1 := by
  induction ops with
  | nil => intro c _; simp [lockWins]
  | cons op ops ih =>
    intro c hops
    have hrest : ∀ o ∈ ops, o ≠ COp.del lk := fun o ho => hops o (List.mem_cons_of_mem _ ho)
    cases op with
    | get k => simpa [lockWins, applyCOp] using ih _ hrest
    | add k v t =>
      by_cases hwin : k = lk ∧ (cacheAdd c k v t).1 = true
      · obtain ⟨hkl, hok⟩ := hwin
        subst hkl
        have hnone : cacheGet c k = none := by
          cases hget : cacheGet c k with
          | none => rfl
          | some w => simp [cacheAdd, hget] at hok
        have hheld : (cacheGet (cacheAdd c k v t).2 k).isSome = true := by
          simp [cacheAdd, hnone, cacheGet_set_self]
        have hzero := lockWins_eq_zero_of_held k ops _ hheld hrest
        simp [lockWins, cacheAdd, hnone] at hzero ⊢
        simp [hzero]
      · have := ih (cacheAdd c k v t).2 hrest
        simp only [lockWins, if_neg hwin, Nat.zero_add]
        exact this
    | set k v t => simpa [lockWins, applyCOp] using ih _ hrest
    | del k => simpa [lockWins, applyCOp] using ih _ hrest

theorem fetchLoop_chain (up : String → Except String Page) (url : String)
    (ps : List Page) (h : Chain up url ps) :
    ∀ (fuel page : Nat) (acc : List Json), ps.length ≤ fuel →
    fetchLoop up fuel url page acc = some (Except.ok (acc ++ concatResults ps)) := by
  induction h with
  | last url p fs hurl hup hst hbody hnext =>
    intro fuel page acc hfuel
    cases fuel with
    | zero => simp at hfuel
    | succ f =>
      rw [fetchLoop]
      rw [if_neg hurl, hup]
      simp only [hst, hbody, hnext]
      simp [pageResultsOf, hbody, concatResults]
  | cons url next p fs ps hurl hup hst hbody hnext hne hchain ih =>
    intro fuel page acc hfuel
    cases fuel with
    | zero => simp at hfuel
    | succ f =>
      rw [fetchLoop]
      rw [if_neg hurl, hup]
      simp only [hst, hbody, hnext]
      have hlen : ps.length ≤ f := by
        simpa using Nat.le_of_succ_le_succ hfuel
      rw [if_neg (show ¬((200 : Nat) ≠ 200) by simp)]
      rw [ih f (page + 1) (acc ++ pageResults fs) hlen]
      simp [concatResults, pageResultsOf, hbody]

theorem countFetchEv_lost_lock_fallback (cfg : Config) (now : String) (c : Cache) :
    countFetchEv (lost_lock_fallback cfg now c).2 = 0 := by
  rcases h1 : cacheGet c cfg.stale_key with _ | s
  · rcases h2 : cacheGet c cfg.cache_key with _ | v <;>
      simp [lost_lock_fallback, h1, h2, countFetchEv]
  · simp [lost_lock_fallback, h1, countFetchEv]

/-- C1: in any serialized window of cache-store operations that contains no
delete (and no TTL expiry) of the lock key, at most one `add` on the lock
key succeeds — the lock is created only through the store's atomic
add-if-absent — and any handler invocation that finds the lock already
held initiates no upstream fetch. -/
theorem claim_c1_lock_mutual_exclusion :
    (∀ (lk : String) (c : Cache) (ops : List COp),
      (∀ op ∈ ops, op ≠ COp.del lk) → lockWins lk c ops ≤ 1) ∧
    (∀ (cfg : Config) (root : String) (secure : Bool) (host : String)
      (up : String → Except String Page) (fuel : Nat) (now : String)
      (c : Cache) (w : CacheVal) (r : HResult),
      cacheGet c cfg.lock_key = some w →
      courses_all cfg root secure host up fuel now c = some r →
      countFetchEv r.trace = 0) := by
  constructor
  · exact fun lk c ops h => lockWins_le_one lk ops c h
  · intro cfg root secure host up fuel now c w r hlock hr
    unfold courses_all at hr
    cases hf : cacheGet c cfg.cache_key with
    | some v =>
      rw [hf] at hr
      cases hr
      rfl
    | none =>
      rw [hf] at hr
      simp only [cacheAdd, hlock] at hr
      rcases hlf : lost_lock_fallback cfg now c with ⟨resp, tr⟩
      rw [hlf] at hr
      cases hr
      have := countFetchEv_lost_lock_fallback cfg now c
      rw [hlf] at this
      simpa [countFetchEv] using this

theorem claim_c1_witness :
    (∀ op ∈ [COp.add "upvx:courses_all:lock:v1" (CacheVal.tok "1") 20,
             COp.add "upvx:courses_all:lock:v1" (CacheVal.tok "1") 20],
      op ≠ COp.del "upvx:courses_all:lock:v1") ∧
    lockWins "upvx:courses_all:lock:v1" []
      [COp.add "upvx:courses_all:lock:v1" (CacheVal.tok "1") 20,
       COp.add "upvx:courses_all:lock:v1" (CacheVal.tok "1") 20] ≤ 1 ∧
    countFetchEv (HResult.trace
      ⟨⟨503, RespBody.warming "Courses catalog is warming up. Please retry." "t"⟩,
        [("upvx:courses_all:lock:v1", CacheVal.tok "1", 20)],
        [Ev.get "upvx:courses_all:v1", Ev.add "upvx:courses_all:lock:v1",
          Ev.get "upvx:courses_all:stale:v1", Ev.get "upvx:courses_all:v1"]⟩) = 0 := by
  refine ⟨by simp, ?_, ?_⟩
  · exact claim_c1_lock_mutual_exclusion.1 _ _ _ (by simp)
  · exact claim_c1_lock_mutual_exclusion.2 DEFAULTS "" false "h"
      (fun _ => Except.error "connection error") 0 "t"
      [("upvx:courses_all:lock:v1", CacheVal.tok "1", 20)] (CacheVal.tok "1") _ rfl rfl

/-- C2: whenever the handler acquires the refresh lock (fresh tier absent
and lock key absent so the atomic add succeeds), the lock key is absent
from the cache store in the state the handler returns, on every exit path:
fetch success, fetch failure with stale fallback, fetch failure answered
502, and any exception raised partway through the fetch. -/
theorem claim_c2_lock_released (cfg : Config) (root : String) (secure : Bool)
    (host : String) (up : String → Except String Page) (fuel : Nat) (now : String)
    (c : Cache) (r : HResult)
    (hmiss : cacheGet c cfg.cache_key = none)
    (hfree : cacheGet c cfg.lock_key = none)
    (hr : courses_all cfg root secure host up fuel now c = some r) :
    cacheGet r.cache cfg.lock_key = none := by
  unfold courses_all at hr
  rw [hmiss] at hr
  simp only [cacheAdd, hfree] at hr
  cases hfres : fetch_all_courses_from_courses_api cfg root secure host up fuel with
  | none => rw [hfres] at hr; simp at hr
  | some res =>
    rw [hfres] at hr
    cases res with
    | ok results =>
      simp only at hr
      cases hr
      exact cacheGet_del_self _ _
    | error e =>
      cases hstale : cacheGet (cacheSet c cfg.lock_key (CacheVal.tok "1")
          cfg.lock_ttl_seconds) cfg.stale_key with
      | some stale =>
        rw [hstale] at hr
        cases hr
        exact cacheGet_del_self _ _
      | none =>
        rw [hstale] at hr
        cases hr
        exact cacheGet_del_self _ _

theorem claim_c2_witness :
    cacheGet ([] : Cache) DEFAULTS.cache_key = none ∧
    cacheGet ([] : Cache) DEFAULTS.lock_key = none ∧
    cacheGet (HResult.cache
      ⟨⟨502, RespBody.errorBody
          "Could not refresh courses catalog and no stale cache available."
          "boom" "t"⟩,
        cacheDelete (cacheSet [] DEFAULTS.lock_key (CacheVal.tok "1")
          DEFAULTS.lock_ttl_seconds) DEFAULTS.lock_key,
        [Ev.get DEFAULTS.cache_key, Ev.add DEFAULTS.lock_key, Ev.fetch,
          Ev.get DEFAULTS.stale_key, Ev.del DEFAULTS.lock_key]⟩) DEFAULTS.lock_key = none := by
  refine ⟨rfl, rfl, ?_⟩
  exact claim_c2_lock_released DEFAULTS "" false "h" (fun _ => Except.error "boom")
    1 "t" [] _ rfl rfl rfl

/-- C3: a request that misses the fresh tier and loses the lock contest
answers via the fallback ladder and initiates no upstream fetch; the
ladder, evaluated against whatever the store holds at that moment, serves
a present stale snapshot with source "stale" and status 200, otherwise
re-reads the fresh tier exactly once and serves it with source "cache" if
now present, and otherwise answers the 503 warming-up body. -/
theorem claim_c3_lost_lock_ladder (cfg : Config) (root : String) (secure : Bool)
    (host : String) (up : String → Except String Page) (fuel : Nat) (now : String)
    (c : Cache) (w : CacheVal)
    (hmiss : cacheGet c cfg.cache_key = none)
    (hlock : cacheGet c cfg.lock_key = some w) :
    courses_all cfg root secure host up fuel now c =
      some ⟨(lost_lock_fallback cfg now c).1, c,
        Ev.get cfg.cache_key :: Ev.add cfg.lock_key :: (lost_lock_fallback cfg now c).2⟩ ∧
    countFetchEv (Ev.get cfg.cache_key :: Ev.add cfg.lock_key ::
      (lost_lock_fallback cfg now c).2) = 0 ∧
    (∀ c' : Cache,
      (∀ s, cacheGet c' cfg.stale_key = some s →
        lost_lock_fallback cfg now c' =
          (json_response s "stale" now 200, [Ev.get cfg.stale_key])) ∧
      (cacheGet c' cfg.stale_key = none → ∀ v, cacheGet c' cfg.cache_key = some v →
        lost_lock_fallback cfg now c' =
          (json_response v "cache" now 200, [Ev.get cfg.stale_key, Ev.get cfg.cache_key])) ∧
      (cacheGet c' cfg.stale_key = none → cacheGet c' cfg.cache_key = none →
        lost_lock_fallback cfg now c' =
          (⟨503, RespBody.warming "Courses catalog is warming up. Please retry." now⟩,
            [Ev.get cfg.stale_key, Ev.get cfg.cache_key]))) := by
  refine ⟨?_, ?_, ?_⟩
  · unfold courses_all
    rw [hmiss]
    simp only [cacheAdd, hlock]
  · have := countFetchEv_lost_lock_fallback cfg now c
    simpa [countFetchEv] using this
  · intro c'
    refine ⟨?_, ?_, ?_⟩
    · intro s hs
      simp [lost_lock_fallback, hs]
    · intro hs v hv
      simp [lost_lock_fallback, hs, hv]
    · intro hs hv
      simp [lost_lock_fallback, hs, hv]

theorem claim_c3_witness :
    cacheGet ([("upvx:courses_all:lock:v1", CacheVal.tok "1", 20)] : Cache)
      DEFAULTS.cache_key = none ∧
    cacheGet ([("upvx:courses_all:lock:v1", CacheVal.tok "1", 20)] : Cache)
      DEFAULTS.lock_key = some (CacheVal.tok "1") ∧
    courses_all DEFAULTS "" false "h" (fun _ => Except.error "x") 0 "t"
      [("upvx:courses_all:lock:v1", CacheVal.tok "1", 20)] =
      some ⟨(lost_lock_fallback DEFAULTS "t"
          [("upvx:courses_all:lock:v1", CacheVal.tok "1", 20)]).1,
        [("upvx:courses_all:lock:v1", CacheVal.tok "1", 20)],
        Ev.get DEFAULTS.cache_key :: Ev.add DEFAULTS.lock_key ::
          (lost_lock_fallback DEFAULTS "t"
            [("upvx:courses_all:lock:v1", CacheVal.tok "1", 20)]).2⟩ := by
  refine ⟨rfl, rfl, ?_⟩
  exact (claim_c3_lost_lock_ladder DEFAULTS "" false "h" (fun _ => Except.error "x")
    0 "t" [("upvx:courses_all:lock:v1", CacheVal.tok "1", 20)]
    (CacheVal.tok "1") rfl rfl).1

/-- C4: a request that acquires the lock and whose upstream fetch fails
serves a present stale snapshot with source "stale" and HTTP status 200,
and, when the stale tier is empty, answers status 502 with the body
carrying the detail, error and generated_at fields. -/
theorem claim_c4_fetch_failure_fallback (cfg : Config) (root : String)
    (secure : Bool) (host : String) (up : String → Except String Page)
    (fuel : Nat) (now : String) (c : Cache) (e : FetchErr)
    (hsl : cfg.stale_key ≠ cfg.lock_key)
    (hmiss : cacheGet c cfg.cache_key = none)
    (hfree : cacheGet c cfg.lock_key = none)
    (hfetch : fetch_all_courses_from_courses_api cfg root secure host up fuel
      = some (Except.error e)) :
    (∀ s, cacheGet c cfg.stale_key = some s →
      courses_all cfg root secure host up fuel now c =
        some ⟨json_response s "stale" now 200,
          cacheDelete (cacheSet c cfg.lock_key (CacheVal.tok "1")
            cfg.lock_ttl_seconds) cfg.lock_key,
          [Ev.get cfg.cache_key, Ev.add cfg.lock_key, Ev.fetch,
            Ev.get cfg.stale_key, Ev.del cfg.lock_key]⟩) ∧
    (cacheGet c cfg.stale_key = none →
      courses_all cfg root secure host up fuel now c =
        some ⟨⟨502, RespBody.errorBody
            "Could not refresh courses catalog and no stale cache available."
            (errMsg e) now⟩,
          cacheDelete (cacheSet c cfg.lock_key (CacheVal.tok "1")
            cfg.lock_ttl_seconds) cfg.lock_key,
          [Ev.get cfg.cache_key, Ev.add cfg.lock_key, Ev.fetch,
            Ev.get cfg.stale_key, Ev.del cfg.lock_key]⟩) := by
  have hsread : cacheGet (cacheSet c cfg.lock_key (CacheVal.tok "1")
      cfg.lock_ttl_seconds) cfg.stale_key = cacheGet c cfg.stale_key :=
    cacheGet_set_ne c cfg.lock_key cfg.stale_key _ _ hsl
  constructor
  · intro s hs
    unfold courses_all
    rw [hmiss]
    simp only [cacheAdd, hfree]
    rw [hfetch]
    simp only [hsread, hs]
  · intro hs
    unfold courses_all
    rw [hmiss]
    simp only [cacheAdd, hfree]
    rw [hfetch]
    simp only [hsread, hs]

theorem claim_c4_witness :
    DEFAULTS.stale_key ≠ DEFAULTS.lock_key ∧
    cacheGet ([] : Cache) DEFAULTS.cache_key = none ∧
    cacheGet ([] : Cache) DEFAULTS.lock_key = none ∧
    fetch_all_courses_from_courses_api DEFAULTS "" false "h"
      (fun _ => Except.error "boom") 1 = some (Except.error (FetchErr.exn "boom")) ∧
    cacheGet ([] : Cache) DEFAULTS.stale_key = none ∧
    courses_all DEFAULTS "" false "h" (fun _ => Except.error "boom") 1 "t" [] =
      some ⟨⟨502, RespBody.errorBody
          "Could not refresh courses catalog and no stale cache available."
          (errMsg (FetchErr.exn "boom")) "t"⟩,
        cacheDelete (cacheSet [] DEFAULTS.lock_key (CacheVal.tok "1")
          DEFAULTS.lock_ttl_seconds) DEFAULTS.lock_key,
        [Ev.get DEFAULTS.cache_key, Ev.add DEFAULTS.lock_key, Ev.fetch,
          Ev.get DEFAULTS.stale_key, Ev.del DEFAULTS.lock_key]⟩ := by
  refine ⟨by decide, rfl, rfl, rfl, rfl, ?_⟩
  exact (claim_c4_fetch_failure_fallback DEFAULTS "" false "h"
    (fun _ => Except.error "boom") 1 "t" [] (FetchErr.exn "boom")
    (by decide) rfl rfl rfl).2 rfl

/-- C5: a successful refresh writes the fetched result unchanged into the
fresh tier with the configured short TTL and the stale tier with the
configured long TTL, answers it with source "fresh"; a subsequent request
against the resulting store (the fresh entry still present) reads back
that identical snapshot with source "cache" and initiates no upstream
fetch. -/
theorem claim_c5_refresh_roundtrip (cfg : Config) (root root2 : String)
    (secure secure2 : Bool) (host host2 : String)
    (up up2 : String → Except String Page) (fuel fuel2 : Nat) (now now2 : String)
    (c : Cache) (rs : List Json) (r : HResult)
    (hcs : cfg.cache_key ≠ cfg.stale_key)
    (hcl : cfg.cache_key ≠ cfg.lock_key)
    (hsl : cfg.stale_key ≠ cfg.lock_key)
    (hmiss : cacheGet c cfg.cache_key = none)
    (hfree : cacheGet c cfg.lock_key = none)
    (hfetch : fetch_all_courses_from_courses_api cfg root secure host up fuel
      = some (Except.ok rs))
    (hr : courses_all cfg root secure host up fuel now c = some r) :
    r.response = json_response (CacheVal.snap rs) "fresh" now 200 ∧
    cacheGetTtl r.cache cfg.cache_key
      = some (CacheVal.snap rs, cfg.cache_ttl_seconds) ∧
    cacheGetTtl r.cache cfg.stale_key
      = some (CacheVal.snap rs, cfg.stale_ttl_seconds) ∧
    courses_all cfg root2 secure2 host2 up2 fuel2 now2 r.cache =
      some ⟨json_response (CacheVal.snap rs) "cache" now2 200, r.cache,
        [Ev.get cfg.cache_key]⟩ ∧
    countFetchEv [Ev.get cfg.cache_key] = 0 := by
  unfold courses_all at hr
  rw [hmiss] at hr
  simp only [cacheAdd, hfree] at hr
  rw [hfetch] at hr
  simp only at hr
  cases hr
  have hgetck : cacheGet (cacheDelete (cacheSet (cacheSet (cacheSet c cfg.lock_key
      (CacheVal.tok "1") cfg.lock_ttl_seconds) cfg.cache_key (CacheVal.snap rs)
      cfg.cache_ttl_seconds) cfg.stale_key (CacheVal.snap rs)
      cfg.stale_ttl_seconds) cfg.lock_key) cfg.cache_key
      = some (CacheVal.snap rs) := by
    rw [cacheGet_del_ne _ _ _ hcl, cacheGet_set_ne _ _ _ _ _ hcs,
      cacheGet_set_self]
  refine ⟨rfl, ?_, ?_, ?_, rfl⟩
  · show cacheGetTtl (cacheDelete (cacheSet (cacheSet (cacheSet c cfg.lock_key
        (CacheVal.tok "1") cfg.lock_ttl_seconds) cfg.cache_key (CacheVal.snap rs)
        cfg.cache_ttl_seconds) cfg.stale_key (CacheVal.snap rs)
        cfg.stale_ttl_seconds) cfg.lock_key) cfg.cache_key
      = some (CacheVal.snap rs, cfg.cache_ttl_seconds)
    rw [cacheGetTtl_del_ne _ _ _ hcl, cacheGetTtl_set_ne _ _ _ _ _ hcs,
      cacheGetTtl_set_self]
  · show cacheGetTtl (cacheDelete (cacheSet (cacheSet (cacheSet c cfg.lock_key
        (CacheVal.tok "1") cfg.lock_ttl_seconds) cfg.cache_key (CacheVal.snap rs)
        cfg.cache_ttl_seconds) cfg.stale_key (CacheVal.snap rs)
        cfg.stale_ttl_seconds) cfg.lock_key) cfg.stale_key
      = some (CacheVal.snap rs, cfg.stale_ttl_seconds)
    rw [cacheGetTtl_del_ne _ _ _ hsl, cacheGetTtl_set_self]
  · unfold courses_all
    rw [hgetck]

theorem claim_c5_witness :
    DEFAULTS.cache_key ≠ DEFAULTS.stale_key ∧
    DEFAULTS.cache_key ≠ DEFAULTS.lock_key ∧
    DEFAULTS.stale_key ≠ DEFAULTS.lock_key ∧
    cacheGet ([] : Cache) DEFAULTS.cache_key = none ∧
    cacheGet ([] : Cache) DEFAULTS.lock_key = none ∧
    fetch_all_courses_from_courses_api DEFAULTS "http://lms" false "h"
      (fun _ => Except.ok ⟨200, "", Except.ok (Json.obj [])⟩) 1
      = some (Except.ok []) ∧
    ((HResult.response ⟨json_response (CacheVal.snap []) "fresh" "t" 200,
        cacheDelete (cacheSet (cacheSet (cacheSet [] DEFAULTS.lock_key
          (CacheVal.tok "1") DEFAULTS.lock_ttl_seconds) DEFAULTS.cache_key
          (CacheVal.snap []) DEFAULTS.cache_ttl_seconds) DEFAULTS.stale_key
          (CacheVal.snap []) DEFAULTS.stale_ttl_seconds) DEFAULTS.lock_key,
        [Ev.get DEFAULTS.cache_key, Ev.add DEFAULTS.lock_key, Ev.fetch,
          Ev.set DEFAULTS.cache_key, Ev.set DEFAULTS.stale_key,
          Ev.del DEFAULTS.lock_key]⟩)
       = json_response (CacheVal.snap []) "fresh" "t" 200 ∧
     cacheGetTtl (HResult.cache ⟨json_response (CacheVal.snap []) "fresh" "t" 200,
        cacheDelete (cacheSet (cacheSet (cacheSet [] DEFAULTS.lock_key
          (CacheVal.tok "1") DEFAULTS.lock_ttl_seconds) DEFAULTS.cache_key
          (CacheVal.snap []) DEFAULTS.cache_ttl_seconds) DEFAULTS.stale_key
          (CacheVal.snap []) DEFAULTS.stale_ttl_seconds) DEFAULTS.lock_key,
        [Ev.get DEFAULTS.cache_key, Ev.add DEFAULTS.lock_key, Ev.fetch,
          Ev.set DEFAULTS.cache_key, Ev.set DEFAULTS.stale_key,
          Ev.del DEFAULTS.lock_key]⟩) DEFAULTS.cache_key
       = some (CacheVal.snap [], DEFAULTS.cache_ttl_seconds) ∧
     cacheGetTtl (HResult.cache ⟨json_response (CacheVal.snap []) "fresh" "t" 200,
        cacheDelete (cacheSet (cacheSet (cacheSet [] DEFAULTS.lock_key
          (CacheVal.tok "1") DEFAULTS.lock_ttl_seconds) DEFAULTS.cache_key
          (CacheVal.snap []) DEFAULTS.cache_ttl_seconds) DEFAULTS.stale_key
          (CacheVal.snap []) DEFAULTS.stale_ttl_seconds) DEFAULTS.lock_key,
        [Ev.get DEFAULTS.cache_key, Ev.add DEFAULTS.lock_key, Ev.fetch,
          Ev.set DEFAULTS.cache_key, Ev.set DEFAULTS.stale_key,
          Ev.del DEFAULTS.lock_key]⟩) DEFAULTS.stale_key
       = some (CacheVal.snap [], DEFAULTS.stale_ttl_seconds) ∧
     courses_all DEFAULTS "r2" true "h2" (fun _ => Except.error "never") 0 "t2"
       (HResult.cache ⟨json_response (CacheVal.snap []) "fresh" "t" 200,
        cacheDelete (cacheSet (cacheSet (cacheSet [] DEFAULTS.lock_key
          (CacheVal.tok "1") DEFAULTS.lock_ttl_seconds) DEFAULTS.cache_key
          (CacheVal.snap []) DEFAULTS.cache_ttl_seconds) DEFAULTS.stale_key
          (CacheVal.snap []) DEFAULTS.stale_ttl_seconds) DEFAULTS.lock_key,
        [Ev.get DEFAULTS.cache_key, Ev.add DEFAULTS.lock_key, Ev.fetch,
          Ev.set DEFAULTS.cache_key, Ev.set DEFAULTS.stale_key,
          Ev.del DEFAULTS.lock_key]⟩) =
       some ⟨json_response (CacheVal.snap []) "cache" "t2" 200,
         HResult.cache ⟨json_response (CacheVal.snap []) "fresh" "t" 200,
          cacheDelete (cacheSet (cacheSet (cacheSet [] DEFAULTS.lock_key
            (CacheVal.tok "1") DEFAULTS.lock_ttl_seconds) DEFAULTS.cache_key
            (CacheVal.snap []) DEFAULTS.cache_ttl_seconds) DEFAULTS.stale_key
            (CacheVal.snap []) DEFAULTS.stale_ttl_seconds) DEFAULTS.lock_key,
          [Ev.get DEFAULTS.cache_key, Ev.add DEFAULTS.lock_key, Ev.fetch,
            Ev.set DEFAULTS.cache_key, Ev.set DEFAULTS.stale_key,
            Ev.del DEFAULTS.lock_key]⟩,
         [Ev.get DEFAULTS.cache_key]⟩ ∧
     countFetchEv [Ev.get DEFAULTS.cache_key] = 0) := by
  refine ⟨by decide, by decide, by decide, rfl, rfl, rfl, ?_⟩
  exact claim_c5_refresh_roundtrip DEFAULTS "http://lms" "r2" false true "h" "h2"
    (fun _ => Except.ok ⟨200, "", Except.ok (Json.obj [])⟩)
    (fun _ => Except.error "never") 1 0 "t" "t2" [] [] _
    (by decide) (by decide) (by decide) rfl rfl rfl rfl

theorem lost_lock_fallback_count (cfg : Config) (now : String) (c : Cache)
    (cnt : Nat) (rs : List Json) (src gen : String) (ver : Nat)
    (hb : ((lost_lock_fallback cfg now c).1).body
      = RespBody.snapshot cnt (CacheVal.snap rs) src gen ver) :
    cnt = rs.length := by
  unfold lost_lock_fallback at hb
  cases h1 : cacheGet c cfg.stale_key with
  | some s =>
    rw [h1] at hb
    simp only [json_response] at hb
    obtain ⟨h2, h3, -⟩ := RespBody.snapshot.inj hb
    rw [← h2, h3]
    rfl
  | none =>
    rw [h1] at hb
    cases h2 : cacheGet c cfg.cache_key with
    | some v =>
      rw [h2] at hb
      simp only [json_response] at hb
      obtain ⟨h3, h4, -⟩ := RespBody.snapshot.inj hb
      rw [← h3, h4]
      rfl
    | none =>
      rw [h2] at hb
      exact absurd hb (by simp)

/-- C10: every snapshot-bearing response the handler constructs (the
"cache", "fresh" and "stale" envelopes, all built by `_json_response`)
carries a count equal to the length of its results list. -/
theorem claim_c10_count_matches_results (cfg : Config) (root : String)
    (secure : Bool) (host : String) (up : String → Except String Page)
    (fuel : Nat) (now : String) (c : Cache) (r : HResult)
    (cnt : Nat) (rs : List Json) (src gen : String) (ver : Nat)
    (hr : courses_all cfg root secure host up fuel now c = some r)
    (hb : r.response.body = RespBody.snapshot cnt (CacheVal.snap rs) src gen ver) :
    cnt = rs.length := by
  unfold courses_all at hr
  cases h1 : cacheGet c cfg.cache_key with
  | some cached =>
    rw [h1] at hr
    cases hr
    simp only [json_response] at hb
    obtain ⟨h2, h3, -⟩ := RespBody.snapshot.inj hb
    rw [← h2, h3]
    rfl
  | none =>
    rw [h1] at hr
    simp only [cacheAdd] at hr
    cases h2 : cacheGet c cfg.lock_key with
    | some w =>
      rw [h2] at hr
      simp only at hr
      rcases h3 : lost_lock_fallback cfg now c with ⟨resp, tr⟩
      rw [h3] at hr
      cases hr
      have := lost_lock_fallback_count cfg now c cnt rs src gen ver
      rw [h3] at this
      exact this hb
    | none =>
      rw [h2] at hr
      simp only at hr
      cases h3 : fetch_all_courses_from_courses_api cfg root secure host up fuel with
      | none => rw [h3] at hr; simp at hr
      | some res =>
        rw [h3] at hr
        cases res with
        | ok results =>
          simp only at hr
          cases hr
          simp only [json_response] at hb
          obtain ⟨h4, h5, -⟩ := RespBody.snapshot.inj hb
          rw [← h4, CacheVal.snap.inj h5]
          rfl
        | error e =>
          cases h4 : cacheGet (cacheSet c cfg.lock_key (CacheVal.tok "1")
              cfg.lock_ttl_seconds) cfg.stale_key with
          | some stale =>
            rw [h4] at hr
            cases hr
            simp only [json_response] at hb
            obtain ⟨h5, h6, -⟩ := RespBody.snapshot.inj hb
            rw [← h5, h6]
            rfl
          | none =>
            rw [h4] at hr
            cases hr
            exact absurd hb (by simp)

theorem claim_c10_witness :
    courses_all DEFAULTS "" false "h" (fun _ => Except.error "x") 0 "t"
      [("upvx:courses_all:v1", CacheVal.snap [Json.null, Json.null], 900)] =
      some ⟨json_response (CacheVal.snap [Json.null, Json.null]) "cache" "t" 200,
        [("upvx:courses_all:v1", CacheVal.snap [Json.null, Json.null], 900)],
        [Ev.get DEFAULTS.cache_key]⟩ ∧
    (2 : Nat) = [Json.null, Json.null].length := by
  refine ⟨rfl, ?_⟩
  exact claim_c10_count_matches_results DEFAULTS "" false "h"
    (fun _ => Except.error "x") 0 "t"
    [("upvx:courses_all:v1", CacheVal.snap [Json.null, Json.null], 900)]
    ⟨json_response (CacheVal.snap [Json.null, Json.null]) "cache" "t" 200,
      [("upvx:courses_all:v1", CacheVal.snap [Json.null, Json.null], 900)],
      [Ev.get DEFAULTS.cache_key]⟩
    2 [Json.null, Json.null] "cache" "t" 1 rfl rfl

/-- C6: over any well-formed run of upstream pages — each page answering
200 with `pagination.next` pointing at the following page and the last
page's `next` absent or null — the fetcher loops while `next` is present,
terminates when it is absent, and returns the concatenation of all pages'
results lists in original order. -/
theorem claim_c6_pagination_concat (cfg : Config) (root : String) (secure : Bool)
    (host : String) (up : String → Except String Page) (fuel : Nat)
    (ps : List Page)
    (h : Chain up (build_internal_url root secure host cfg.api_path
      ("?page_size=" ++ toString cfg.page_size)) ps)
    (hfuel : ps.length ≤ fuel) :
    fetch_all_courses_from_courses_api cfg root secure host up fuel
      = some (Except.ok (concatResults ps)) := by
  unfold fetch_all_courses_from_courses_api
  simpa using fetchLoop_chain up _ ps h fuel 1 [] hfuel

theorem claim_c6_witness :
    Chain (fun u => if u = "u2" then Except.ok (⟨200, "", Except.ok (Json.obj [("results", Json.arr [Json.str "b"]), ("pagination", Json.obj [("next", Json.str "u3")])])⟩ : Page)
        else if u = "u3" then Except.ok (⟨200, "", Except.ok (Json.obj [("results", Json.arr [Json.str "c"]), ("pagination", Json.obj [("next", Json.null)])])⟩ : Page)
        else Except.ok (⟨200, "", Except.ok (Json.obj [("results", Json.arr [Json.str "a"]), ("pagination", Json.obj [("next", Json.str "u2")])])⟩ : Page))
      (build_internal_url "http://lms" false "h" DEFAULTS.api_path
        ("?page_size=" ++ toString DEFAULTS.page_size))
      [(⟨200, "", Except.ok (Json.obj [("results", Json.arr [Json.str "a"]), ("pagination", Json.obj [("next", Json.str "u2")])])⟩ : Page), (⟨200, "", Except.ok (Json.obj [("results", Json.arr [Json.str "b"]), ("pagination", Json.obj [("next", Json.str "u3")])])⟩ : Page), (⟨200, "", Except.ok (Json.obj [("results", Json.arr [Json.str "c"]), ("pagination", Json.obj [("next", Json.null)])])⟩ : Page)] ∧
    fetch_all_courses_from_courses_api DEFAULTS "http://lms" false "h"
      (fun u => if u = "u2" then Except.ok (⟨200, "", Except.ok (Json.obj [("results", Json.arr [Json.str "b"]), ("pagination", Json.obj [("next", Json.str "u3")])])⟩ : Page)
        else if u = "u3" then Except.ok (⟨200, "", Except.ok (Json.obj [("results", Json.arr [Json.str "c"]), ("pagination", Json.obj [("next", Json.null)])])⟩ : Page)
        else Except.ok (⟨200, "", Except.ok (Json.obj [("results", Json.arr [Json.str "a"]), ("pagination", Json.obj [("next", Json.str "u2")])])⟩ : Page)) 3
      = some (Except.ok [Json.str "a", Json.str "b", Json.str "c"]) := by
  have hc : Chain (fun u => if u = "u2" then Except.ok (⟨200, "", Except.ok (Json.obj [("results", Json.arr [Json.str "b"]), ("pagination", Json.obj [("next", Json.str "u3")])])⟩ : Page)
        else if u = "u3" then Except.ok (⟨200, "", Except.ok (Json.obj [("results", Json.arr [Json.str "c"]), ("pagination", Json.obj [("next", Json.null)])])⟩ : Page)
        else Except.ok (⟨200, "", Except.ok (Json.obj [("results", Json.arr [Json.str "a"]), ("pagination", Json.obj [("next", Json.str "u2")])])⟩ : Page))
      (build_internal_url "http://lms" false "h" DEFAULTS.api_path
        ("?page_size=" ++ toString DEFAULTS.page_size))
      [(⟨200, "", Except.ok (Json.obj [("results", Json.arr [Json.str "a"]), ("pagination", Json.obj [("next", Json.str "u2")])])⟩ : Page), (⟨200, "", Except.ok (Json.obj [("results", Json.arr [Json.str "b"]), ("pagination", Json.obj [("next", Json.str "u3")])])⟩ : Page), (⟨200, "", Except.ok (Json.obj [("results", Json.arr [Json.str "c"]), ("pagination", Json.obj [("next", Json.null)])])⟩ : Page)] :=
    Chain.cons (build_internal_url "http://lms" false "h" DEFAULTS.api_path
        ("?page_size=" ++ toString DEFAULTS.page_size)) "u2"
      (⟨200, "", Except.ok (Json.obj [("results", Json.arr [Json.str "a"]), ("pagination", Json.obj [("next", Json.str "u2")])])⟩ : Page) [("results", Json.arr [Json.str "a"]), ("pagination", Json.obj [("next", Json.str "u2")])]
      [(⟨200, "", Except.ok (Json.obj [("results", Json.arr [Json.str "b"]), ("pagination", Json.obj [("next", Json.str "u3")])])⟩ : Page), (⟨200, "", Except.ok (Json.obj [("results", Json.arr [Json.str "c"]), ("pagination", Json.obj [("next", Json.null)])])⟩ : Page)]
      (by decide) rfl rfl rfl rfl (by decide)
      (Chain.cons "u2" "u3" (⟨200, "", Except.ok (Json.obj [("results", Json.arr [Json.str "b"]), ("pagination", Json.obj [("next", Json.str "u3")])])⟩ : Page) [("results", Json.arr [Json.str "b"]), ("pagination", Json.obj [("next", Json.str "u3")])]
        [(⟨200, "", Except.ok (Json.obj [("results", Json.arr [Json.str "c"]), ("pagination", Json.obj [("next", Json.null)])])⟩ : Page)]
        (by decide) rfl rfl rfl rfl (by decide)
        (Chain.last "u3" (⟨200, "", Except.ok (Json.obj [("results", Json.arr [Json.str "c"]), ("pagination", Json.obj [("next", Json.null)])])⟩ : Page) [("results", Json.arr [Json.str "c"]), ("pagination", Json.obj [("next", Json.null)])]
          (by decide) rfl rfl rfl rfl))
  exact ⟨hc, claim_c6_pagination_concat DEFAULTS "http://lms" false "h" _ 3 _ hc (by simp)⟩

/-- C7: when a page answers a non-success status the fetcher fails on that
very iteration with an error carrying the page number, the status and the
response body truncated to at most 300 characters; and on any handler run
whose fetch fails, neither cache tier is modified. -/
theorem claim_c7_upstream_error_aborts (up : String → Except String Page)
    (fuel page : Nat) (url : String) (acc : List Json) (p : Page)
    (hurl : url ≠ "") (hup : up url = Except.ok p) (hst : p.status ≠ 200) :
    fetchLoop up (fuel + 1) url page acc
      = some (Except.error (FetchErr.upstreamError page p.status (pyTake p.text 300))) ∧
    (pyTake p.text 300).length ≤ 300 ∧
    (∀ (cfg : Config) (root : String) (secure : Bool) (host : String)
      (uph : String → Except String Page) (fuelh : Nat) (now : String)
      (c : Cache) (e : FetchErr) (r : HResult),
      cfg.cache_key ≠ cfg.lock_key → cfg.stale_key ≠ cfg.lock_key →
      cacheGet c cfg.cache_key = none → cacheGet c cfg.lock_key = none →
      fetch_all_courses_from_courses_api cfg root secure host uph fuelh
        = some (Except.error e) →
      courses_all cfg root secure host uph fuelh now c = some r →
      cacheGet r.cache cfg.cache_key = cacheGet c cfg.cache_key ∧
      cacheGet r.cache cfg.stale_key = cacheGet c cfg.stale_key) := by
  refine ⟨?_, ?_, ?_⟩
  · rw [fetchLoop, if_neg hurl]
    simp only [hup, if_pos hst]
  · have h1 : (pyTake p.text 300).length = (p.text.data.take 300).length := rfl
    rw [h1, List.length_take]
    exact min_le_left _ _
  · intro cfg root secure host uph fuelh now c e r hcl hsl hmiss hfree hfetch hr
    unfold courses_all at hr
    rw [hmiss] at hr
    simp only [cacheAdd, hfree] at hr
    rw [hfetch] at hr
    cases hstale : cacheGet (cacheSet c cfg.lock_key (CacheVal.tok "1")
        cfg.lock_ttl_seconds) cfg.stale_key with
    | some stale =>
      rw [hstale] at hr
      cases hr
      constructor
      · show cacheGet (cacheDelete (cacheSet c cfg.lock_key (CacheVal.tok "1")
            cfg.lock_ttl_seconds) cfg.lock_key) cfg.cache_key = cacheGet c cfg.cache_key
        rw [cacheGet_del_ne _ _ _ hcl, cacheGet_set_ne _ _ _ _ _ hcl]
      · show cacheGet (cacheDelete (cacheSet c cfg.lock_key (CacheVal.tok "1")
            cfg.lock_ttl_seconds) cfg.lock_key) cfg.stale_key = cacheGet c cfg.stale_key
        rw [cacheGet_del_ne _ _ _ hsl, cacheGet_set_ne _ _ _ _ _ hsl]
    | none =>
      rw [hstale] at hr
      cases hr
      constructor
      · show cacheGet (cacheDelete (cacheSet c cfg.lock_key (CacheVal.tok "1")
            cfg.lock_ttl_seconds) cfg.lock_key) cfg.cache_key = cacheGet c cfg.cache_key
        rw [cacheGet_del_ne _ _ _ hcl, cacheGet_set_ne _ _ _ _ _ hcl]
      · show cacheGet (cacheDelete (cacheSet c cfg.lock_key (CacheVal.tok "1")
            cfg.lock_ttl_seconds) cfg.lock_key) cfg.stale_key = cacheGet c cfg.stale_key
        rw [cacheGet_del_ne _ _ _ hsl, cacheGet_set_ne _ _ _ _ _ hsl]

theorem claim_c7_witness :
    ("u" : String) ≠ "" ∧
    ((⟨404, "not found", Except.error "x"⟩ : Page).status ≠ 200) ∧
    fetchLoop (fun _ => Except.ok ⟨404, "not found", Except.error "x"⟩) 1 "u" 1 []
      = some (Except.error (FetchErr.upstreamError 1 404 (pyTake "not found" 300))) ∧
    (pyTake "not found" 300).length ≤ 300 ∧
    (cacheGet (HResult.cache
        ⟨⟨502, RespBody.errorBody
            "Could not refresh courses catalog and no stale cache available."
            (errMsg (FetchErr.upstreamError 1 404 (pyTake "not found" 300))) "t"⟩,
          cacheDelete (cacheSet [] DEFAULTS.lock_key (CacheVal.tok "1")
            DEFAULTS.lock_ttl_seconds) DEFAULTS.lock_key,
          [Ev.get DEFAULTS.cache_key, Ev.add DEFAULTS.lock_key, Ev.fetch,
            Ev.get DEFAULTS.stale_key, Ev.del DEFAULTS.lock_key]⟩)
        DEFAULTS.cache_key = cacheGet ([] : Cache) DEFAULTS.cache_key ∧
     cacheGet (HResult.cache
        ⟨⟨502, RespBody.errorBody
            "Could not refresh courses catalog and no stale cache available."
            (errMsg (FetchErr.upstreamError 1 404 (pyTake "not found" 300))) "t"⟩,
          cacheDelete (cacheSet [] DEFAULTS.lock_key (CacheVal.tok "1")
            DEFAULTS.lock_ttl_seconds) DEFAULTS.lock_key,
          [Ev.get DEFAULTS.cache_key, Ev.add DEFAULTS.lock_key, Ev.fetch,
            Ev.get DEFAULTS.stale_key, Ev.del DEFAULTS.lock_key]⟩)
        DEFAULTS.stale_key = cacheGet ([] : Cache) DEFAULTS.stale_key) := by
  have hthm := claim_c7_upstream_error_aborts
    (fun _ => Except.ok ⟨404, "not found", Except.error "x"⟩) 0 1 "u" []
    ⟨404, "not found", Except.error "x"⟩ (by decide) rfl (by decide)
  refine ⟨by decide, by decide, hthm.1, hthm.2.1, ?_⟩
  exact hthm.2.2 DEFAULTS "http://lms" false "h"
    (fun _ => Except.ok ⟨404, "not found", Except.error "x"⟩) 1 "t" []
    (FetchErr.upstreamError 1 404 (pyTake "not found" 300)) _
    (by decide) (by decide) rfl rfl rfl rfl

/-- C8: a 200 page whose JSON body lacks a `results` field, or whose
`results` field holds any non-list value (string, number, bool, null,
object), contributes the empty list, and the loop proceeds exactly as it
would on an empty page — following `next` or terminating — never failing
because of the malformed `results` field. -/
theorem claim_c8_malformed_results_empty (fs : List (String × Json))
    (up : String → Except String Page) (fuel page : Nat) (url : String)
    (acc : List Json) (p : Page)
    (hmal : lookupField fs "results" = none ∨
      ∃ v, lookupField fs "results" = some v ∧ ∀ xs, v ≠ Json.arr xs)
    (hurl : url ≠ "") (hup : up url = Except.ok p) (hst : p.status = 200)
    (hbody : p.body = Except.ok (Json.obj fs)) :
    pageResults fs = [] ∧
    fetchLoop up (fuel + 1) url page acc =
      (match stepNext fs with
       | Except.ok none => some (Except.ok acc)
       | Except.ok (some u) => fetchLoop up fuel u (page + 1) acc
       | Except.error _ => some (Except.error (FetchErr.exn "unhandled exception"))) := by
  have hres : pageResults fs = [] := by
    rcases hmal with h | ⟨v, hv, hnl⟩
    · rw [pageResults, h]
    · cases v with
      | arr xs => exact absurd rfl (hnl xs)
      | null => rw [pageResults, hv]
      | bool b => rw [pageResults, hv]
      | num n => rw [pageResults, hv]
      | str s => rw [pageResults, hv]
      | obj fs2 => rw [pageResults, hv]
  refine ⟨hres, ?_⟩
  rw [fetchLoop, if_neg hurl]
  simp only [hup, if_neg (show ¬(p.status ≠ 200) by simp [hst]), hbody]
  rcases hsn : stepNext fs with u | su
  · simp [hsn]
  · rcases su with _ | u2 <;> simp [hsn, hres]

theorem claim_c8_witness :
    (lookupField [("results", Json.str "oops"),
        ("pagination", Json.obj [])] "results" = none ∨
      ∃ v, lookupField [("results", Json.str "oops"),
        ("pagination", Json.obj [])] "results" = some v ∧
        ∀ xs, v ≠ Json.arr xs) ∧
    pageResults [("results", Json.str "oops"), ("pagination", Json.obj [])] = [] ∧
    fetchLoop (fun _ => Except.ok ⟨200, "",
        Except.ok (Json.obj [("results", Json.str "oops"),
          ("pagination", Json.obj [])])⟩) 1 "u" 1 [Json.null]
      = some (Except.ok [Json.null]) := by
  have hthm := claim_c8_malformed_results_empty
    [("results", Json.str "oops"), ("pagination", Json.obj [])]
    (fun _ => Except.ok ⟨200, "",
      Except.ok (Json.obj [("results", Json.str "oops"),
        ("pagination", Json.obj [])])⟩) 0 1 "u" [Json.null]
    ⟨200, "", Except.ok (Json.obj [("results", Json.str "oops"),
      ("pagination", Json.obj [])])⟩
    (Or.inr ⟨Json.str "oops", rfl, fun xs h => Json.noConfusion h⟩)
    (by decide) rfl rfl rfl
  exact ⟨Or.inr ⟨Json.str "oops", rfl, fun xs h => Json.noConfusion h⟩, hthm.1, hthm.2⟩

theorem str_append_assoc (a b c : String) : a ++ b ++ c = a ++ (b ++ c) := by
  cases a with
  | mk la =>
    cases b with
    | mk lb =>
      cases c with
      | mk lc =>
        show String.mk (la ++ lb ++ lc) = String.mk (la ++ (lb ++ lc))
        rw [List.append_assoc]

theorem legacy_url_eq (root : String) (secure : Bool) (host : String) :
    Legacy.legacy_build_internal_url root secure host
      "/api/courses/v1/courses/?page_size=100"
      = build_internal_url root secure host DEFAULTS.api_path
        ("?page_size=" ++ toString DEFAULTS.page_size) := by
  have hq : ("/api/courses/v1/courses/" ++
      ("?page_size=" ++ toString (100 : Nat)) : String)
      = "/api/courses/v1/courses/?page_size=100" := by decide
  have key : ∀ x : String,
      x ++ "/api/courses/v1/courses/" ++ ("?page_size=" ++ toString (100 : Nat))
        = x ++ "/api/courses/v1/courses/?page_size=100" := by
    intro x
    rw [str_append_assoc, hq]
  unfold Legacy.legacy_build_internal_url build_internal_url
  simp only [DEFAULTS]
  by_cases h : rstripSlash root ≠ ""
  · rw [if_pos h, if_pos h, key]
  · rw [if_neg h, if_neg h, key]

/-- C9: the legacy hard-coded handler (`src/views.py`) and the
configurable handler (`src/course_catalog_cache/views.py`) under default
settings are behaviorally equivalent: their upstream fetchers agree on
every request and upstream behavior (the hard-coded URL equals the one
assembled from the default path and page size), and the handlers agree on
the response, the final store state and the full operation trace (hence
the same sequence of cache-store and upstream operations) for every
request, store state and upstream behavior. -/
theorem claim_c9_legacy_equivalence :
    (∀ (root : String) (secure : Bool) (host : String)
      (up : String → Except String Page) (fuel : Nat),
      Legacy.legacy_fetch_all root secure host up fuel
        = fetch_all_courses_from_courses_api DEFAULTS root secure host up fuel) ∧
    (∀ (root : String) (secure : Bool) (host : String)
      (up : String → Except String Page) (fuel : Nat) (now : String) (c : Cache),
      Legacy.courses_all root secure host up fuel now c
        = courses_all DEFAULTS root secure host up fuel now c) := by
  constructor
  · intro root secure host up fuel
    unfold Legacy.legacy_fetch_all fetch_all_courses_from_courses_api
    rw [legacy_url_eq]
  intro root secure host up fuel now c
  unfold Legacy.courses_all courses_all lost_lock_fallback
    Legacy.legacy_fetch_all fetch_all_courses_from_courses_api
  rw [legacy_url_eq]
  simp only [Legacy.CACHE_KEY, Legacy.STALE_KEY, Legacy.LOCK_KEY,
    Legacy.CACHE_TTL_SECONDS, Legacy.STALE_TTL_SECONDS, Legacy.LOCK_TTL_SECONDS,
    DEFAULTS]
  cases h1 : cacheGet c "upvx:courses_all:v1" with
  | some v => rfl
  | none =>
    simp only [cacheAdd]
    cases h2 : cacheGet c "upvx:courses_all:lock:v1" with
    | some w =>
      simp only
      cases h3 : cacheGet c "upvx:courses_all:stale:v1" with
      | some s => rfl
      | none =>
        cases h4 : cacheGet c "upvx:courses_all:v1" with
        | some v2 => rfl
        | none => rfl
    | none => simp only
